import Mathlib

/-!
Verification of the DS18B20 one-wire temperature sensor driver
(`src/ds18b20.c`) against its natural-language specification.

The one-wire bus collaborator (the `owb_*` capability interface) and the
declarations of `ds18b20.h` (resolution and error enumerations, session
struct) are not part of the provided source; they are modelled from the
spec as noted on each definition.  Driver functions are shallow embeddings
of the C code: machine bytes become `Nat` with explicit masking, the enum
`DS18B20_RESOLUTION` becomes `Int` (valid values 9..12, invalid marker -1),
`float` arithmetic on temperatures and durations becomes exact `ℚ`
arithmetic, and bus traffic is recorded as an explicit event trace.
-/

/-- Modelled from the spec: an observable operation performed on the
one-wire bus collaborator (reset, command/data bytes, ROM identity,
byte reads, busy-poll bit reads). -/
inductive BusEvent where
  | reset : BusEvent
  | writeByte (b : Nat) : BusEvent
  | writeBytes (bs : List Nat) : BusEvent
  | writeRomCode (rom : Nat) : BusEvent
  | readBytes (n : Nat) : BusEvent
  | readBit : BusEvent
deriving DecidableEq, Repr

/-- Modelled from the spec: the behaviour of the device/bus pair as seen
through the one-wire collaborator.  `present` is the presence pulse after a
reset, `writeOk`/`readOk` are the transport status codes, `scratch` is the
9-byte scratchpad content the device shifts out on a read, `writeEffect`
gives the scratchpad content after a scratchpad-write of the given bytes,
and `readBitAt` is the busy-poll bit observed at each elapsed tick. -/
structure Device where
  present : Bool
  writeOk : Bool
  readOk : Bool
  scratch : List Nat
  writeEffect : List Nat → List Nat → List Nat
  readBitAt : Nat → Nat

/-- Modelled from the spec / `ds18b20.h`: the per-device session object
(`DS18B20_Info`).  The `bus` pointer is replaced by passing a `Device`
explicitly; `rom_code` is the 64-bit identity as a `Nat`. -/
structure DS18B20_Info where
  rom_code : Nat
  use_crc : Bool
  resolution : Int
  solo : Bool
  init : Bool

/-- Modelled from the spec / `ds18b20.h`: error kinds.  The spec names
them `UnknownError`, `NotPresentError` (`DS18B20_ERROR_DEVICE`),
`CrcError`, `BusError` (`DS18B20_ERROR_OWB`) and `NullArgumentError`. -/
inductive DS18B20_ERROR where
  | DS18B20_ERROR_UNKNOWN : DS18B20_ERROR
  | DS18B20_OK : DS18B20_ERROR
  | DS18B20_ERROR_DEVICE : DS18B20_ERROR
  | DS18B20_ERROR_CRC : DS18B20_ERROR
  | DS18B20_ERROR_OWB : DS18B20_ERROR
  | DS18B20_ERROR_NULL : DS18B20_ERROR
deriving DecidableEq, Repr

/-- Modelled from the spec / `ds18b20.h`: the resolution enumeration as an
integer, `DS18B20_RESOLUTION_INVALID = -1`. -/
def DS18B20_RESOLUTION_INVALID : Int := -1

/-- Modelled from the spec / `ds18b20.h`: `DS18B20_RESOLUTION_9_BIT = 9`. -/
def DS18B20_RESOLUTION_9_BIT : Int := 9

/-- Modelled from the spec / `ds18b20.h`: `DS18B20_RESOLUTION_12_BIT = 12`. -/
def DS18B20_RESOLUTION_12_BIT : Int := 12

/-- Modelled from the spec: the one-wire "skip ROM" broadcast opcode. -/
def OWB_ROM_SKIP : Nat := 0xCC

/-- Modelled from the spec: the one-wire "match ROM" opcode. -/
def OWB_ROM_MATCH : Nat := 0x55

/-- `DS18B20_FUNCTION_SCRATCHPAD_READ` (ds18b20.c line 56). -/
def DS18B20_FUNCTION_SCRATCHPAD_READ : Nat := 0xBE

/-- `DS18B20_FUNCTION_SCRATCHPAD_WRITE` (ds18b20.c line 55). -/
def DS18B20_FUNCTION_SCRATCHPAD_WRITE : Nat := 0x4E

/-- `T_CONV` (ds18b20.c line 51): maximum conversion time at 12-bit
resolution, in milliseconds. -/
def T_CONV : ℚ := 750

/-- Modelled from the spec: one step of CRC-8/MAXIM (reflected polynomial
0x8C) absorbing one byte, as computed by the collaborator `owb_crc8_bytes`. -/
def crc8_byte (crc b : Nat) : Nat :=
  (List.range 8).foldl
    (fun acc _ => if acc &&& 1 = 1 then (acc >>> 1) ^^^ 0x8C else acc >>> 1)
    (crc ^^^ b)

/-- Modelled from the spec: `owb_crc8_bytes(seed, buffer, len)`, CRC-8/MAXIM
over a byte buffer. -/
def owb_crc8_bytes (seed : Nat) (bytes : List Nat) : Nat :=
  bytes.foldl crc8_byte seed

/-- Modelled from the spec: `owb_reset` returns the presence pulse. -/
def owb_reset (dev : Device) : Bool × List BusEvent :=
  (dev.present, [BusEvent.reset])

/-- Modelled from the spec: `owb_write_byte` returns the transport status. -/
def owb_write_byte (dev : Device) (b : Nat) : Bool × List BusEvent :=
  (dev.writeOk, [BusEvent.writeByte b])

/-- Modelled from the spec: `owb_write_bytes`; the device reacts according
to its `writeEffect`. -/
def owb_write_bytes (dev : Device) (bs : List Nat) : Device × List BusEvent :=
  ({ dev with scratch := dev.writeEffect dev.scratch bs }, [BusEvent.writeBytes bs])

/-- Modelled from the spec: `owb_read_bytes` shifts out the first `n`
scratchpad bytes. -/
def owb_read_bytes (dev : Device) (n : Nat) : Bool × List Nat × List BusEvent :=
  (dev.readOk, dev.scratch.take n, [BusEvent.readBytes n])

/-- Modelled from the spec: `owb_write_rom_code` transmits the 64-bit
identity. -/
def owb_write_rom_code (_dev : Device) (rom : Nat) : List BusEvent :=
  [BusEvent.writeRomCode rom]

/-- `_is_init` (ds18b20.c lines 90-110): the NULL check has no counterpart
in the embedding, so this is the `init` flag. -/
def _is_init (info : DS18B20_Info) : Bool :=
  info.init

/-- `_address_device` (ds18b20.c lines 112-140): reset the bus; if a device
is present, issue skip-ROM (solo) or match-ROM followed by the ROM code. -/
def _address_device (dev : Device) (info : DS18B20_Info) : Bool × List BusEvent :=
  if _is_init info then
    let (present, t1) := owb_reset dev
    if present then
      if info.solo then
        let (_, t2) := owb_write_byte dev OWB_ROM_SKIP
        (present, t1 ++ t2)
      else
        let (_, t2) := owb_write_byte dev OWB_ROM_MATCH
        let t3 := owb_write_rom_code dev info.rom_code
        (present, t1 ++ t2 ++ t3)
    else
      (present, t1)
  else
    (false, [])

/-- `_check_resolution` (ds18b20.c lines 142-145). -/
def _check_resolution (resolution : Int) : Bool :=
  decide (DS18B20_RESOLUTION_9_BIT ≤ resolution ∧ resolution ≤ DS18B20_RESOLUTION_12_BIT)

/-- The C conversion of a 16-bit bit pattern to `int16_t` (two's
complement), as in `int16_t raw = (msb << 8) | lsb_masked`. -/
def int16_of_bits (v : Nat) : Int :=
  if v % 65536 < 32768 then (v % 65536 : Int) else (v % 65536 : Int) - 65536

/-- `_decode_temp` (ds18b20.c lines 183-199): mask the LSB by resolution,
combine into a signed 16-bit value, divide by 16.  `float` is modelled as
exact `ℚ` (every `int16/16` value is exactly representable in `float`).
For an invalid resolution the C code logs an error and returns `0.0f`. -/
def _decode_temp (lsb msb : Nat) (resolution : Int) : ℚ :=
  if _check_resolution resolution then
    let lsb_mask : List Nat := [0xF8, 0xFC, 0xFE, 0xFF]
    let lsb_masked := lsb_mask.getD (resolution - DS18B20_RESOLUTION_9_BIT).toNat 0 &&& lsb
    let raw : Int := int16_of_bits ((msb <<< 8) ||| lsb_masked)
    (raw : ℚ) / 16
  else
    0

/-- `_min` (ds18b20.c lines 201-204). -/
def _min (x y : Nat) : Nat :=
  if x > y then y else x

/-- `_read_scratchpad` (ds18b20.c lines 206-268).  `scratchpad` is the
caller's 9-byte buffer (always zero-initialised by the callers in this
file); the result carries the error code, the buffer content after the
call, and the bus trace.  The NULL-buffer check (`DS18B20_ERROR_NULL`) has
no counterpart since a buffer is always supplied. -/
def _read_scratchpad (dev : Device) (info : DS18B20_Info) (scratchpad : List Nat)
    (count : Nat) : DS18B20_ERROR × List Nat × List BusEvent :=
  let count := if info.use_crc then 9 else count
  let count := _min 9 count
  let (present, t1) := _address_device dev info
  if present then
    let (wok, t2) := owb_write_byte dev DS18B20_FUNCTION_SCRATCHPAD_READ
    if wok then
      let (rok, data, t3) := owb_read_bytes dev count
      if rok then
        let sp := data ++ scratchpad.drop count
        if !info.use_crc then
          let (_, t4) := owb_reset dev
          (DS18B20_ERROR.DS18B20_OK, sp, t1 ++ t2 ++ t3 ++ t4)
        else
          if owb_crc8_bytes 0 sp ≠ 0 then
            (DS18B20_ERROR.DS18B20_ERROR_CRC, sp, t1 ++ t2 ++ t3)
          else
            (DS18B20_ERROR.DS18B20_OK, sp, t1 ++ t2 ++ t3)
      else
        (DS18B20_ERROR.DS18B20_ERROR_OWB, scratchpad, t1 ++ t2 ++ t3)
    else
      (DS18B20_ERROR.DS18B20_ERROR_OWB, scratchpad, t1 ++ t2)
  else
    (DS18B20_ERROR.DS18B20_ERROR_UNKNOWN, scratchpad, t1)

/-- `_write_scratchpad` (ds18b20.c lines 270-309): write bytes 2..4
(trigger-high, trigger-low, configuration) after the 0x4E command; when
`verify` is set, re-read through the configuration byte and byte-compare. -/
def _write_scratchpad (dev : Device) (info : DS18B20_Info) (scratchpad : List Nat)
    (verify : Bool) : Bool × Device × List BusEvent :=
  if _is_init info then
    let (present, t1) := _address_device dev info
    if present then
      let (_, t2) := owb_write_byte dev DS18B20_FUNCTION_SCRATCHPAD_WRITE
      let bytes3 := (scratchpad.drop 2).take 3
      let (dev2, t3) := owb_write_bytes dev bytes3
      if verify then
        let (err, rd, t4) := _read_scratchpad dev2 info (List.replicate 9 0) 5
        if err = DS18B20_ERROR.DS18B20_OK then
          if (rd.drop 2).take 3 ≠ bytes3 then
            (false, dev2, t1 ++ t2 ++ t3 ++ t4)
          else
            (true, dev2, t1 ++ t2 ++ t3 ++ t4)
        else
          (false, dev2, t1 ++ t2 ++ t3 ++ t4)
      else
        (true, dev2, t1 ++ t2 ++ t3)
    else
      (false, dev, t1)
  else
    (false, dev, [])

/-- `ds18b20_read_resolution` (ds18b20.c lines 421-443): read the
scratchpad through the configuration byte (the error code is discarded),
extract bits 5-6 of the configuration and add 9, validate. -/
def ds18b20_read_resolution (dev : Device) (info : DS18B20_Info) :
    Int × List BusEvent :=
  if _is_init info then
    let (_err, sp, t1) := _read_scratchpad dev info (List.replicate 9 0) 5
    let resolution : Int := (((sp.getD 4 0) >>> 5) &&& 0x03 : Nat) + DS18B20_RESOLUTION_9_BIT
    if !_check_resolution resolution then
      (DS18B20_RESOLUTION_INVALID, t1)
    else
      (resolution, t1)
  else
    (DS18B20_RESOLUTION_INVALID, [])

/-- The C expression `i & 0x03` on a two's-complement `int`: keeping the
low two bits equals the Euclidean remainder mod 4. -/
def int_land_0x03 (i : Int) : Nat :=
  (i % 4).toNat

/-- `ds18b20_set_resolution` (ds18b20.c lines 382-419): guard on the
*cached* resolution, read the scratchpad through the configuration byte,
overwrite the configuration byte with `((resolution-1) & 0x03) << 5 | 0x1f`,
write with verification; on success cache the requested resolution, on
failure refresh the cache by re-reading from the device. -/
def ds18b20_set_resolution (dev : Device) (info : DS18B20_Info) (resolution : Int) :
    Bool × Device × DS18B20_Info × List BusEvent :=
  if _is_init info then
    if _check_resolution info.resolution then
      let (_, sp, t1) := _read_scratchpad dev info (List.replicate 9 0) 5
      let value : Nat := ((int_land_0x03 (resolution - 1)) <<< 5) ||| 0x1f
      let sp2 := sp.set 4 value
      let (result, dev2, t2) := _write_scratchpad dev info sp2 true
      if result then
        (true, dev2, { info with resolution := resolution }, t1 ++ t2)
      else
        let (res2, t3) := ds18b20_read_resolution dev2 info
        (false, dev2, { info with resolution := res2 }, t1 ++ t2 ++ t3)
    else
      (false, dev, info, [])
  else
    (false, dev, info, [])

/-- The maximum conversion wait bound (ds18b20.c line 155):
`(float)T_CONV / (float)divisor * 1.1` with `divisor = 1 << (12 - res)`,
modelled in exact rational arithmetic. -/
def max_conversion_time (resolution : Int) : ℚ :=
  T_CONV / (2 ^ (DS18B20_RESOLUTION_12_BIT - resolution).toNat : ℚ) * (11 / 10)

/-- The tick bound (ds18b20.c line 156):
`ceil(max_conversion_time / portTICK_PERIOD_MS)`; `period` is the platform
tick period `portTICK_PERIOD_MS` in milliseconds. -/
def max_conversion_ticks (period : ℚ) (resolution : Int) : Nat :=
  (⌈max_conversion_time resolution / period⌉).toNat

/-- The do-while poll loop of `_wait_for_conversion` (ds18b20.c lines
163-168): each iteration delays one tick and reads one busy bit; the loop
exits when the bit is nonzero or the duration reaches the tick bound.
Returns the final `duration_ticks`, which also counts the bit reads. -/
def _conversion_poll (readBitAt : Nat → Nat) (maxTicks dur : Nat) : Nat :=
  let dur2 := dur + 1
  if readBitAt dur2 ≠ 0 then dur2
  else if maxTicks ≤ dur2 then dur2
  else _conversion_poll readBitAt maxTicks dur2
termination_by maxTicks - dur

/-- `_wait_for_conversion` (ds18b20.c lines 147-181): with a valid cached
resolution, poll up to the computed bound and return the elapsed time
`duration_ticks * portTICK_PERIOD_MS`; otherwise return zero without
touching the bus.  The second component is the number of busy-poll bit
reads performed (the only bus operations of this function). -/
def _wait_for_conversion (period : ℚ) (dev : Device) (info : DS18B20_Info) :
    ℚ × Nat :=
  if _check_resolution info.resolution then
    let maxTicks := max_conversion_ticks period info.resolution
    let dur := _conversion_poll dev.readBitAt maxTicks 0
    (dur * period, dur)
  else
    (0, 0)

/-- Written from the spec's words for the refinement claim C2: the mask
that keeps the top 5/6/7/8 bits of the LSB for 9/10/11/12-bit resolution. -/
def spec_lsb_mask (resolution : Int) : Nat :=
  256 - 2 ^ (12 - resolution).toNat

/-- Written from the spec's words for the refinement claim C2: the
two's-complement interpretation of `(msb << 8) | (lsb & mask_r)`,
divided by 16. -/
def spec_decode (lsb msb : Nat) (resolution : Int) : ℚ :=
  (int16_of_bits ((msb <<< 8) ||| (lsb &&& spec_lsb_mask resolution)) : ℚ) / 16

/-- A bus on which no device answers the reset; used for concrete
instantiations. -/
def absentDevice : Device :=
  { present := false
    writeOk := true
    readOk := true
    scratch := List.replicate 9 0
    writeEffect := fun old _ => old
    readBitAt := fun _ => 0 }

/-- A present device that honours scratchpad writes verbatim and never
signals conversion completion; its scratchpad holds the spec's example
bytes (whose CRC-8 is zero). -/
def honestDevice : Device :=
  { present := true
    writeOk := true
    readOk := true
    scratch := [0x50, 0x05, 0x4B, 0x46, 0x7F, 0xFF, 0x0C, 0x10, 0x1C]
    writeEffect := fun old bs => old.take 2 ++ bs ++ old.drop (2 + bs.length)
    readBitAt := fun _ => 0 }

/-- An initialised session addressed to the spec's example identity,
CRC disabled, 12-bit cached resolution. -/
def testInfo : DS18B20_Info :=
  { rom_code := 0x28AABBCCDDEEFF10
    use_crc := false
    resolution := 12
    solo := false
    init := true }

/-- The test session with CRC-checked reads enabled. -/
def testInfoCrc : DS18B20_Info :=
  { testInfo with use_crc := true }

/-- Addressing never performs a byte read: helper for the scratchpad-read
trace analysis. -/
theorem address_device_no_readBytes (dev : Device) (info : DS18B20_Info) (n : Nat) :
    BusEvent.readBytes n ∉ (_address_device dev info).2 := by
  unfold _address_device owb_reset owb_write_byte owb_write_rom_code
  split
  · cases hp : dev.present
    · simp [hp]
    · cases hs : info.solo <;> simp [hp, hs]
  · simp

/-- C2: for every valid resolution, `_decode_temp` equals the spec's
description (two's-complement of `(msb << 8) | (lsb & mask_r)` over 16,
where `mask_r` keeps the top 5/6/7/8 bits of the LSB), and in particular
decoding LSB=0xFF,MSB=0x00 at 9-bit equals decoding LSB=0xF8,MSB=0x00:
masked-out bits never affect the result. -/
theorem C2_decode_temp_matches_spec (lsb msb : Nat) (r : Int)
    (h : _check_resolution r = true) :
    _decode_temp lsb msb r = spec_decode lsb msb r ∧
    _decode_temp 0xFF 0x00 DS18B20_RESOLUTION_9_BIT
      = _decode_temp 0xF8 0x00 DS18B20_RESOLUTION_9_BIT := by
  constructor
  · have hr : r = 9 ∨ r = 10 ∨ r = 11 ∨ r = 12 := by
      simp only [_check_resolution, DS18B20_RESOLUTION_9_BIT,
        DS18B20_RESOLUTION_12_BIT, decide_eq_true_eq] at h
      omega
    rcases hr with h1 | h1 | h1 | h1 <;> subst h1 <;>
      simp +decide [_decode_temp, spec_decode, spec_lsb_mask, _check_resolution,
        DS18B20_RESOLUTION_9_BIT, DS18B20_RESOLUTION_12_BIT, Nat.land_comm]
  · have h248 : (248 : Nat) &&& 255 = 248 := by decide
    simp +decide [_decode_temp, _check_resolution, h248,
      DS18B20_RESOLUTION_9_BIT, DS18B20_RESOLUTION_12_BIT]

/-- C2 witness: the theorem instantiated at LSB=0xFF, MSB=0x00, 9-bit. -/
theorem C2_decode_temp_matches_spec_witness :
    _check_resolution 9 = true ∧
    (_decode_temp 0xFF 0x00 9 = spec_decode 0xFF 0x00 9 ∧
     _decode_temp 0xFF 0x00 DS18B20_RESOLUTION_9_BIT
       = _decode_temp 0xF8 0x00 DS18B20_RESOLUTION_9_BIT) :=
  ⟨by decide, C2_decode_temp_matches_spec 0xFF 0x00 9 (by decide)⟩

/-- C6: for every valid cached resolution the conversion wait bound used by
`_wait_for_conversion` is `750 / 2^(12 - r) * 1.1` (exact arithmetic), and
the 9-bit bound is exactly 1/8 of the 12-bit bound. -/
theorem C6_conversion_bound_scaling (r : Int) (h : _check_resolution r = true) :
    max_conversion_time r = 750 / (2 ^ (12 - r).toNat : ℚ) * (11 / 10) ∧
    max_conversion_time DS18B20_RESOLUTION_9_BIT
      = max_conversion_time DS18B20_RESOLUTION_12_BIT / 8 := by
  refine ⟨rfl, ?_⟩
  simp +decide [max_conversion_time, T_CONV,
    DS18B20_RESOLUTION_9_BIT, DS18B20_RESOLUTION_12_BIT]
  norm_num

/-- C6 witness: the theorem instantiated at 9-bit resolution. -/
theorem C6_conversion_bound_scaling_witness :
    _check_resolution 9 = true ∧
    (max_conversion_time 9 = 750 / (2 ^ ((12 : Int) - 9).toNat : ℚ) * (11 / 10) ∧
     max_conversion_time DS18B20_RESOLUTION_9_BIT
       = max_conversion_time DS18B20_RESOLUTION_12_BIT / 8) :=
  ⟨by decide, C6_conversion_bound_scaling 9 (by decide)⟩

/-- C8 counterexample: at the invalid resolution 13 the decoder returns
`0.0`, which coincides with the successfully decoded temperature at the
valid resolution 12 for LSB=0x00, MSB=0x00 — the return value is *not*
distinguishable from a successfully decoded temperature. -/
theorem C8_counterexample :
    _check_resolution 13 = false ∧ _check_resolution 12 = true ∧
    _decode_temp 0x00 0x00 13 = _decode_temp 0x00 0x00 12 := by
  refine ⟨by decide, by decide, ?_⟩
  simp +decide [_decode_temp, _check_resolution, int16_of_bits,
    DS18B20_RESOLUTION_9_BIT, DS18B20_RESOLUTION_12_BIT]

/-- C8 amended: for every invalid resolution and all input bytes,
`_decode_temp` applies no mask and returns the fixed value `0.0` (the
failure is only logged); `0.0` also arises as a valid decode, so it is not
a distinguishable sentinel. -/
theorem C8_decode_invalid_resolution (lsb msb : Nat) (r : Int)
    (h : _check_resolution r = false) :
    _decode_temp lsb msb r = 0 := by
  simp [_decode_temp, h]

/-- C8 witness: the amended theorem instantiated at resolution 13. -/
theorem C8_decode_invalid_resolution_witness :
    _check_resolution 13 = false ∧ _decode_temp 0xFF 0x34 13 = 0 :=
  ⟨by decide, C8_decode_invalid_resolution 0xFF 0x34 13 (by decide)⟩

/-- The value `((configuration >> 5) & 0x03) + 9` extracted by
`ds18b20_read_resolution` always passes `_check_resolution`. -/
theorem resolution_extract_check (c : Nat) :
    _check_resolution (((c >>> 5) &&& 0x03 : Nat) + DS18B20_RESOLUTION_9_BIT) = true := by
  have hc : (c >>> 5) &&& 0x03 ≤ 3 := Nat.and_le_right
  simp only [_check_resolution, DS18B20_RESOLUTION_9_BIT, DS18B20_RESOLUTION_12_BIT,
    decide_eq_true_eq]
  omega

/-- C10: `ds18b20_read_resolution` discards the scratchpad-read error:
with no device present it decodes the zero-initialised buffer and returns
9-bit; the extracted value `((c >> 5) & 0x03) + 9` always lies in 9..12,
so for any initialised session the result is in 9..12 and the
invalid-marker branch is unreachable through extraction. -/
theorem C10_read_resolution_ignores_failure :
    (∀ dev info, info.init = true → dev.present = false →
        (ds18b20_read_resolution dev info).1 = DS18B20_RESOLUTION_9_BIT) ∧
    (∀ c : Nat,
        _check_resolution (((c >>> 5) &&& 0x03 : Nat) + DS18B20_RESOLUTION_9_BIT) = true) ∧
    (∀ dev info, info.init = true →
        DS18B20_RESOLUTION_9_BIT ≤ (ds18b20_read_resolution dev info).1 ∧
        (ds18b20_read_resolution dev info).1 ≤ DS18B20_RESOLUTION_12_BIT) := by
  refine ⟨?_, resolution_extract_check, ?_⟩
  · intro dev info hi hp
    simp +decide [ds18b20_read_resolution, _read_scratchpad, _address_device,
      _is_init, owb_reset, _check_resolution, hi, hp,
      DS18B20_RESOLUTION_9_BIT, DS18B20_RESOLUTION_12_BIT]
  · intro dev info hi
    rcases hrs : _read_scratchpad dev info (List.replicate 9 0) 5 with ⟨err, sp, t⟩
    have hval := resolution_extract_check (sp.getD 4 0)
    simp only [ds18b20_read_resolution, _is_init, hi, if_true, hrs, hval,
      Bool.not_true, Bool.false_eq_true, if_false]
    simp only [_check_resolution, DS18B20_RESOLUTION_9_BIT, DS18B20_RESOLUTION_12_BIT,
      decide_eq_true_eq] at hval
    exact hval

/-- C10 witness: the theorem parts instantiated at the absent device and
the configuration byte 0xFF. -/
theorem C10_read_resolution_ignores_failure_witness :
    testInfo.init = true ∧ absentDevice.present = false ∧
    (ds18b20_read_resolution absentDevice testInfo).1 = DS18B20_RESOLUTION_9_BIT ∧
    _check_resolution ((((0xFF : Nat) >>> 5) &&& 0x03 : Nat) + DS18B20_RESOLUTION_9_BIT) = true :=
  ⟨rfl, rfl, C10_read_resolution_ignores_failure.1 absentDevice testInfo rfl rfl,
    C10_read_resolution_ignores_failure.2.1 0xFF⟩

/-- C5: addressing determinism: with `solo` the trace is reset followed by
the skip-ROM broadcast and never contains a ROM identity; without `solo`
(device present) it is reset, match-ROM, then the configured identity
verbatim; with no device present it returns false and transmits no command
byte and no identity. -/
theorem C5_addressing_determinism (dev : Device) (info : DS18B20_Info)
    (h : info.init = true) :
    (info.solo = true →
        (∀ rom, BusEvent.writeRomCode rom ∉ (_address_device dev info).2) ∧
        (dev.present = true →
          (_address_device dev info).2 =
            [BusEvent.reset, BusEvent.writeByte OWB_ROM_SKIP])) ∧
    (info.solo = false → dev.present = true →
        (_address_device dev info).2 =
          [BusEvent.reset, BusEvent.writeByte OWB_ROM_MATCH,
           BusEvent.writeRomCode info.rom_code]) ∧
    (dev.present = false →
        (_address_device dev info).1 = false ∧
        (∀ b, BusEvent.writeByte b ∉ (_address_device dev info).2) ∧
        (∀ rom, BusEvent.writeRomCode rom ∉ (_address_device dev info).2)) := by
  cases hp : dev.present <;> cases hs : info.solo <;>
    simp [_address_device, _is_init, owb_reset, owb_write_byte, owb_write_rom_code,
      h, hp, hs]

/-- C5 witness: the theorem instantiated at the honest device and the test
session (not solo, device present): the identity is transmitted verbatim. -/
theorem C5_addressing_determinism_witness :
    testInfo.init = true ∧
    (testInfo.solo = false → honestDevice.present = true →
        (_address_device honestDevice testInfo).2 =
          [BusEvent.reset, BusEvent.writeByte OWB_ROM_MATCH,
           BusEvent.writeRomCode testInfo.rom_code]) :=
  ⟨rfl, (C5_addressing_determinism honestDevice testInfo rfl).2.1⟩

/-- C4 counterexample: on the absent device (no presence pulse after
reset), `_read_scratchpad` returns the unclassified default
`DS18B20_ERROR_UNKNOWN`, not the not-present error kind
(`DS18B20_ERROR_DEVICE`, the spec's `NotPresentError`). -/
theorem C4_counterexample :
    (_read_scratchpad absentDevice testInfo (List.replicate 9 0) 9).1
        = DS18B20_ERROR.DS18B20_ERROR_UNKNOWN ∧
    DS18B20_ERROR.DS18B20_ERROR_UNKNOWN ≠ DS18B20_ERROR.DS18B20_ERROR_DEVICE :=
  ⟨rfl, by decide⟩

/-- C4 amended: for every initialised session and every byte count, when no
device responds present after the bus reset performed by addressing,
`_read_scratchpad` fails with the unclassified default `UnknownError`; no
not-present-specific error kind is propagated from addressing, which
reports only a boolean. -/
theorem C4_read_scratchpad_not_present (dev : Device) (info : DS18B20_Info)
    (buf : List Nat) (count : Nat) (hi : info.init = true) (hp : dev.present = false) :
    (_read_scratchpad dev info buf count).1 = DS18B20_ERROR.DS18B20_ERROR_UNKNOWN := by
  simp [_read_scratchpad, _address_device, _is_init, owb_reset, hi, hp]

/-- C4 witness: the amended theorem instantiated at the absent device. -/
theorem C4_read_scratchpad_not_present_witness :
    testInfo.init = true ∧ absentDevice.present = false ∧
    (_read_scratchpad absentDevice testInfo (List.replicate 9 0) 2).1
      = DS18B20_ERROR.DS18B20_ERROR_UNKNOWN :=
  ⟨rfl, rfl,
    C4_read_scratchpad_not_present absentDevice testInfo (List.replicate 9 0) 2 rfl rfl⟩

/-- Addressing reports presence when the session is initialised and the
device answers the reset. -/
theorem address_device_present (dev : Device) (info : DS18B20_Info)
    (hi : info.init = true) (hp : dev.present = true) :
    (_address_device dev info).1 = true := by
  cases hs : info.solo <;>
    simp [_address_device, _is_init, owb_reset, owb_write_byte, owb_write_rom_code,
      hi, hp, hs]

/-- C1: with CRC enabled, `_read_scratchpad` reads the full 9 scratchpad
bytes regardless of the requested count (every byte-read on the trace has
count 9), and — given presence and transport success — fails with
`DS18B20_ERROR_CRC` exactly when CRC-8/MAXIM (seed 0) over the 9 bytes is
nonzero, succeeding when it is zero. -/
theorem C1_read_scratchpad_crc_gate (dev : Device) (info : DS18B20_Info) (count : Nat)
    (hi : info.init = true) (hc : info.use_crc = true) (hp : dev.present = true)
    (hw : dev.writeOk = true) (hr : dev.readOk = true) (hlen : dev.scratch.length = 9) :
    (_read_scratchpad dev info (List.replicate 9 0) count).2.1 = dev.scratch ∧
    BusEvent.readBytes 9 ∈ (_read_scratchpad dev info (List.replicate 9 0) count).2.2 ∧
    (∀ n, BusEvent.readBytes n ∈ (_read_scratchpad dev info (List.replicate 9 0) count).2.2
        → n = 9) ∧
    (_read_scratchpad dev info (List.replicate 9 0) count).1 =
      (if owb_crc8_bytes 0 dev.scratch ≠ 0 then DS18B20_ERROR.DS18B20_ERROR_CRC
       else DS18B20_ERROR.DS18B20_OK) := by
  have htake : dev.scratch.take 9 = dev.scratch := List.take_of_length_le (le_of_eq hlen)
  have hdrop : (List.replicate 9 (0 : Nat)).drop 9 = [] := rfl
  rcases hA : _address_device dev info with ⟨pres, t1⟩
  have hpres : pres = true := by
    have h1 := address_device_present dev info hi hp
    rw [hA] at h1; exact h1
  have hnr : ∀ n, BusEvent.readBytes n ∉ t1 := by
    intro n hmem
    have h2 := address_device_no_readBytes dev info n
    rw [hA] at h2; exact h2 hmem
  subst hpres
  by_cases hcrc : owb_crc8_bytes 0 dev.scratch = 0 <;>
  · simp +decide [_read_scratchpad, _min, hc, hA, owb_write_byte, hw,
      owb_read_bytes, hr, htake, hdrop, hcrc]
    intro n hmem
    rcases hmem with hmem | hmem
    · exact absurd hmem (hnr n)
    · exact hmem

/-- C1 witness: the theorem instantiated at the honest device (whose
9 scratchpad bytes have CRC 0) with requested count 2. -/
theorem C1_read_scratchpad_crc_gate_witness :
    testInfoCrc.init = true ∧ testInfoCrc.use_crc = true ∧
    honestDevice.scratch.length = 9 ∧
    ((_read_scratchpad honestDevice testInfoCrc (List.replicate 9 0) 2).2.1
        = honestDevice.scratch ∧
     BusEvent.readBytes 9
        ∈ (_read_scratchpad honestDevice testInfoCrc (List.replicate 9 0) 2).2.2 ∧
     (∀ n, BusEvent.readBytes n
            ∈ (_read_scratchpad honestDevice testInfoCrc (List.replicate 9 0) 2).2.2
          → n = 9) ∧
     (_read_scratchpad honestDevice testInfoCrc (List.replicate 9 0) 2).1 =
       (if owb_crc8_bytes 0 honestDevice.scratch ≠ 0 then DS18B20_ERROR.DS18B20_ERROR_CRC
        else DS18B20_ERROR.DS18B20_OK)) :=
  ⟨rfl, rfl, rfl,
    C1_read_scratchpad_crc_gate honestDevice testInfoCrc 2 rfl rfl rfl rfl rfl rfl⟩

/-- The poll loop never runs past the tick bound (provided the bound is
ahead of the start). -/
theorem conversion_poll_le (f : Nat → Nat) (k : Nat) :
    ∀ maxTicks dur, maxTicks - dur ≤ k → dur < maxTicks →
      _conversion_poll f maxTicks dur ≤ maxTicks := by
  induction k with
  | zero => intro maxTicks dur h1 h2; omega
  | succ k ih =>
    intro maxTicks dur h1 h2
    rw [_conversion_poll]
    by_cases hb : f (dur + 1) ≠ 0
    · rw [if_pos hb]; omega
    · rw [if_neg hb]
      by_cases hm : maxTicks ≤ dur + 1
      · rw [if_pos hm]; omega
      · rw [if_neg hm]
        exact ih maxTicks (dur + 1) (by omega) (by omega)

/-- If the busy bit never releases, the poll loop runs exactly to the tick
bound and exits. -/
theorem conversion_poll_timeout (f : Nat → Nat) (hf : ∀ n, f n = 0) (k : Nat) :
    ∀ maxTicks dur, maxTicks - dur ≤ k → dur < maxTicks →
      _conversion_poll f maxTicks dur = maxTicks := by
  induction k with
  | zero => intro maxTicks dur h1 h2; omega
  | succ k ih =>
    intro maxTicks dur h1 h2
    rw [_conversion_poll]
    have hb : ¬ f (dur + 1) ≠ 0 := by simp [hf]
    rw [if_neg hb]
    by_cases hm : maxTicks ≤ dur + 1
    · rw [if_pos hm]; omega
    · rw [if_neg hm]
      exact ih maxTicks (dur + 1) (by omega) (by omega)

/-- The conversion wait bound is strictly positive. -/
theorem max_conversion_time_pos (r : Int) : 0 < max_conversion_time r := by
  unfold max_conversion_time T_CONV
  positivity

/-- With a positive tick period the tick bound is at least one. -/
theorem max_conversion_ticks_pos (period : ℚ) (hp : 0 < period) (r : Int) :
    1 ≤ max_conversion_ticks period r := by
  unfold max_conversion_ticks
  have h1 : 0 < max_conversion_time r / period := div_pos (max_conversion_time_pos r) hp
  have h2 : (0 : ℤ) < ⌈max_conversion_time r / period⌉ := Int.ceil_pos.mpr h1
  omega

/-- C7: for any busy-bit behaviour the poll loop of `_wait_for_conversion`
exits no later than the tick bound; the function returns the elapsed time
(`duration * period`, never an error); if the bus never signals completion
the elapsed time is at least the computed bound `max_conversion_time`; and
with an invalid cached resolution it performs no bus operations (zero bit
reads) and returns zero. -/
theorem C7_wait_for_conversion_bounded (period : ℚ) (dev : Device)
    (info : DS18B20_Info) (hp : 0 < period) :
    (_check_resolution info.resolution = true →
        (_wait_for_conversion period dev info).2
            ≤ max_conversion_ticks period info.resolution ∧
        (_wait_for_conversion period dev info).1 =
          ((_wait_for_conversion period dev info).2 : ℚ) * period ∧
        ((∀ n, dev.readBitAt n = 0) →
          max_conversion_time info.resolution
            ≤ (_wait_for_conversion period dev info).1)) ∧
    (_check_resolution info.resolution = false →
        _wait_for_conversion period dev info = (0, 0)) := by
  constructor
  · intro hres
    have hpos := max_conversion_ticks_pos period hp info.resolution
    have hle := conversion_poll_le dev.readBitAt
      (max_conversion_ticks period info.resolution)
      (max_conversion_ticks period info.resolution) 0 (by omega) (by omega)
    simp only [_wait_for_conversion, hres, if_true]
    refine ⟨hle, by trivial, ?_⟩
    intro hf
    have hto := conversion_poll_timeout dev.readBitAt hf
      (max_conversion_ticks period info.resolution)
      (max_conversion_ticks period info.resolution) 0 (by omega) (by omega)
    rw [hto]
    have hx : 0 < max_conversion_time info.resolution / period :=
      div_pos (max_conversion_time_pos _) hp
    have hnn : (0 : ℤ) ≤ ⌈max_conversion_time info.resolution / period⌉ :=
      le_of_lt (Int.ceil_pos.mpr hx)
    have h1 : max_conversion_time info.resolution / period
        ≤ ((⌈max_conversion_time info.resolution / period⌉ : ℤ) : ℚ) := Int.le_ceil _
    have h3 : ((max_conversion_ticks period info.resolution : Nat) : ℚ)
        = ((⌈max_conversion_time info.resolution / period⌉ : ℤ) : ℚ) := by
      rw [max_conversion_ticks]
      exact_mod_cast congrArg (fun z : ℤ => (z : ℚ)) (Int.toNat_of_nonneg hnn)
    rw [h3]
    calc max_conversion_time info.resolution
        = (max_conversion_time info.resolution / period) * period := by
          field_simp
      _ ≤ ((⌈max_conversion_time info.resolution / period⌉ : ℤ) : ℚ) * period :=
          mul_le_mul_of_nonneg_right h1 (le_of_lt hp)
  · intro hres
    simp [_wait_for_conversion, hres]

/-- C7 witness: 12-bit resolution, tick period 10 ms, a bus that never
signals completion. -/
theorem C7_wait_for_conversion_bounded_witness :
    (0 : ℚ) < 10 ∧
    (_check_resolution testInfo.resolution = true →
        (_wait_for_conversion 10 honestDevice testInfo).2
            ≤ max_conversion_ticks 10 testInfo.resolution ∧
        (_wait_for_conversion 10 honestDevice testInfo).1 =
          ((_wait_for_conversion 10 honestDevice testInfo).2 : ℚ) * 10 ∧
        ((∀ n, honestDevice.readBitAt n = 0) →
          max_conversion_time testInfo.resolution
            ≤ (_wait_for_conversion 10 honestDevice testInfo).1)) :=
  ⟨by norm_num, (C7_wait_for_conversion_bounded 10 honestDevice testInfo (by norm_num)).1⟩

/-- C3: for every initialised session with a valid cached resolution and
valid requested resolution, `ds18b20_set_resolution` leaves the cache equal
to the requested value on success, and on failure refreshes it to exactly
the value re-read from the device (`ds18b20_read_resolution` on the
post-write device state), never leaving it silently stale. -/
theorem C3_set_resolution_cache_consistency (dev : Device) (info : DS18B20_Info)
    (r : Int) (hi : info.init = true)
    (hcache : _check_resolution info.resolution = true)
    (_hr : _check_resolution r = true) :
    ((ds18b20_set_resolution dev info r).1 = true →
        (ds18b20_set_resolution dev info r).2.2.1.resolution = r) ∧
    ((ds18b20_set_resolution dev info r).1 = false →
        (ds18b20_set_resolution dev info r).2.2.1.resolution =
          (ds18b20_read_resolution (ds18b20_set_resolution dev info r).2.1 info).1) := by
  rcases hRS : _read_scratchpad dev info (List.replicate 9 0) 5 with ⟨e0, sp, t1⟩
  rcases hWS : _write_scratchpad dev info
      (sp.set 4 ((int_land_0x03 (r - 1)) <<< 5 ||| 0x1f)) true with ⟨res, dev2, t2⟩
  rcases hRR : ds18b20_read_resolution dev2 info with ⟨res2, t3⟩
  simp only [ds18b20_set_resolution, _is_init, hi, hcache, if_true, hRS, hWS]
  cases res <;> simp [hRR]

/-- C3 witness: the theorem instantiated at the honest device, requesting
9-bit resolution from a session cached at 12-bit. -/
theorem C3_set_resolution_cache_consistency_witness :
    testInfo.init = true ∧ _check_resolution testInfo.resolution = true ∧
    _check_resolution 9 = true ∧
    (((ds18b20_set_resolution honestDevice testInfo 9).1 = true →
        (ds18b20_set_resolution honestDevice testInfo 9).2.2.1.resolution = 9) ∧
     ((ds18b20_set_resolution honestDevice testInfo 9).1 = false →
        (ds18b20_set_resolution honestDevice testInfo 9).2.2.1.resolution =
          (ds18b20_read_resolution
            (ds18b20_set_resolution honestDevice testInfo 9).2.1 testInfo).1)) :=
  ⟨rfl, by decide, by decide,
    C3_set_resolution_cache_consistency honestDevice testInfo 9 rfl (by decide) (by decide)⟩

/-- A list of length 9 is literally its nine elements. -/
theorem exists_nine_bytes (l : List Nat) (h : l.length = 9) :
    ∃ b0 b1 b2 b3 b4 b5 b6 b7 b8, l = [b0, b1, b2, b3, b4, b5, b6, b7, b8] := by
  rcases l with _ | ⟨b0, l⟩; · simp at h
  rcases l with _ | ⟨b1, l⟩; · simp at h
  rcases l with _ | ⟨b2, l⟩; · simp at h
  rcases l with _ | ⟨b3, l⟩; · simp at h
  rcases l with _ | ⟨b4, l⟩; · simp at h
  rcases l with _ | ⟨b5, l⟩; · simp at h
  rcases l with _ | ⟨b6, l⟩; · simp at h
  rcases l with _ | ⟨b7, l⟩; · simp at h
  rcases l with _ | ⟨b8, l⟩; · simp at h
  rcases l with _ | ⟨b9, l⟩
  · exact ⟨b0, b1, b2, b3, b4, b5, b6, b7, b8, rfl⟩
  · simp at h

/-- C9: `ds18b20_set_resolution` validates only the cached resolution,
never its argument: for any out-of-range requested resolution, on a
present device that honours writes verbatim (CRC mode off), it writes the
configuration byte `((r - 1) & 0x03) << 5 | 0x1f`, returns success, and
caches the unsupported value `r`. -/
theorem C9_set_resolution_skips_argument_validation (dev : Device)
    (info : DS18B20_Info) (r : Int) (hi : info.init = true)
    (hcache : _check_resolution info.resolution = true)
    (_hout : _check_resolution r = false) (hcrc : info.use_crc = false)
    (hp : dev.present = true) (hw : dev.writeOk = true) (hrd : dev.readOk = true)
    (hlen : dev.scratch.length = 9)
    (heff : ∀ old bs, dev.writeEffect old bs
        = old.take 2 ++ bs ++ old.drop (2 + bs.length)) :
    (ds18b20_set_resolution dev info r).1 = true ∧
    (ds18b20_set_resolution dev info r).2.2.1.resolution = r ∧
    (ds18b20_set_resolution dev info r).2.1.scratch.getD 4 0
        = (int_land_0x03 (r - 1)) <<< 5 ||| 0x1f := by
  obtain ⟨b0, b1, b2, b3, b4, b5, b6, b7, b8, hsc⟩ := exists_nine_bytes dev.scratch hlen
  cases hs : info.solo <;>
    simp +decide [ds18b20_set_resolution, _read_scratchpad, _write_scratchpad,
      _address_device, _is_init, _min, owb_reset, owb_write_byte, owb_write_bytes,
      owb_read_bytes, owb_write_rom_code, hi, hcache, hcrc, hp, hw, hrd, hs, hsc, heff]

/-- C9 witness: requesting the unsupported resolution 13 on the honest
device succeeds, writes configuration byte `0x1f`, and leaves the cache at
13 — which is neither a valid resolution nor the invalid marker. -/
theorem C9_set_resolution_skips_argument_validation_witness :
    _check_resolution 13 = false ∧ (13 : Int) ≠ DS18B20_RESOLUTION_INVALID ∧
    ((ds18b20_set_resolution honestDevice testInfo 13).1 = true ∧
     (ds18b20_set_resolution honestDevice testInfo 13).2.2.1.resolution = 13 ∧
     (ds18b20_set_resolution honestDevice testInfo 13).2.1.scratch.getD 4 0
        = (int_land_0x03 (13 - 1)) <<< 5 ||| 0x1f) :=
  ⟨by decide, by decide,
    C9_set_resolution_skips_argument_validation honestDevice testInfo 13 rfl
      (by decide) (by decide) rfl rfl rfl rfl rfl (fun _ _ => rfl)⟩
